import Mathlib

/-
Verification of the RobotStreamer signaling/session layer.

The definitions below are a shallow embedding of the three Python source
files:
  src/robot_node/robot_node.py      (the hub: VideoStream, handle_client)
  src/operator_node/operator_node.py (client: run_once / signaling_loop)
  src/recorder_node/recorder_node.py (client: run_once / retry loop)
Machine-level details that the signaling layer never inspects (SDP contents,
codecs, wall-clock time) are abstracted behind explicit parameters.
-/

/-! ## Command broadcast (robot_node.py lines 140-146)

The hub keeps the set of connected signaling channels in `websockets_set`.
On receiving a command it iterates over a snapshot `list(websockets_set)`,
skips the sending channel (`other_ws is not ws`, object identity), and sends
the raw message string to each other channel inside a per-recipient
`try/except` that only logs a failure.  A websocket object is modelled by a
`Peer` carrying a unique identity `pid` (object identity) and a flag
`sendOk` saying whether `other_ws.send` succeeds for it. -/

structure Peer where
  pid : Nat
  sendOk : Bool
deriving DecidableEq, Repr

/-- The broadcast loop of robot_node.py:140-146.  Returns, in iteration
order, one entry `(pid, delivered, msg)` per send attempt: the sender is
skipped, a failed send (`sendOk = false`) is logged and the loop continues
with the remaining recipients. -/
def broadcast : List Peer → Nat → String → List (Nat × Bool × String)
  | [], _, _ => []
  | p :: rest, senderId, msg =>
    if p.pid = senderId then broadcast rest senderId msg
    else (p.pid, p.sendOk, msg) :: broadcast rest senderId msg

lemma broadcast_ne_sender (peers : List Peer) (senderId : Nat) (msg : String) :
    ∀ r ∈ broadcast peers senderId msg, r.1 ≠ senderId := by
  induction peers with
  | nil => intro r hr; simp [broadcast] at hr
  | cons p rest ih =>
    intro r hr
    by_cases hp : p.pid = senderId
    · exact ih r (by simpa [broadcast, hp] using hr)
    · rcases (by simpa [broadcast, hp] using hr) with h | h
      · subst h; exact hp
      · exact ih r h

lemma mem_broadcast_of_mem (peers : List Peer) (senderId : Nat) (msg : String)
    (q : Peer) (hq : q ∈ peers) (hne : q.pid ≠ senderId) :
    (q.pid, q.sendOk, msg) ∈ broadcast peers senderId msg := by
  induction peers with
  | nil => simp at hq
  | cons p rest ih =>
    rcases List.mem_cons.mp hq with h | h
    · subst h; simp [broadcast, hne]
    · by_cases hp : p.pid = senderId
      · simpa [broadcast, hp] using ih h
      · simp only [broadcast, if_neg hp, List.mem_cons]
        exact Or.inr (ih h)

/-- Claim C2: for every registered set of sessions and every command message
received from a sender session, the hub's broadcast delivers the message to
every other registered session, never to the sender itself, and a send
failure to one recipient does not prevent delivery to the remaining
recipients or abort the broadcast.  (The statement quantifies over all
configurations of `sendOk` flags, so delivery to `q` holds no matter which
other recipients fail.) -/
theorem c2_broadcast (peers : List Peer) (senderId : Nat) (msg : String)
    (q : Peer) (hq : q ∈ peers) (hne : q.pid ≠ senderId) :
    (∀ r ∈ broadcast peers senderId msg, r.1 ≠ senderId)
    ∧ (q.pid, q.sendOk, msg) ∈ broadcast peers senderId msg
    ∧ (q.sendOk = true → (q.pid, true, msg) ∈ broadcast peers senderId msg) := by
  refine ⟨broadcast_ne_sender peers senderId msg,
          mem_broadcast_of_mem peers senderId msg q hq hne, ?_⟩
  intro hok
  have h := mem_broadcast_of_mem peers senderId msg q hq hne
  rwa [hok] at h

/-- Witness for C2: in the registry {peer 1 (send fails), peer 2 (send ok),
peer 9 (the sender)}, peer 2 still receives the message. -/
theorem c2_broadcast_witness :
    ((2 : Nat), true, "m") ∈ broadcast [⟨1, false⟩, ⟨2, true⟩, ⟨9, true⟩] 9 "m" :=
  (c2_broadcast [⟨1, false⟩, ⟨2, true⟩, ⟨9, true⟩] 9 "m" ⟨2, true⟩
    (by decide) (by decide)).2.2 rfl

/-! ## Recorder reconnect loop (recorder_node.py lines 135-156)

`retry_delay = 2`, `max_retries = 10`; each connection attempt that fails
with a connection-level error sleeps `retry_delay` seconds and then doubles
the delay, capped at 10 (`retry_delay = min(retry_delay * 2, 10)`).  A
successful attempt breaks out of the loop; an unexpected (non-connection)
error breaks without the terminal report; if all ten attempts fail the
`for`/`else` clause reports terminal failure of the endpoint. -/

inductive AttemptOutcome
  | ok
  | connErr
  | otherErr
deriving DecidableEq, Repr

inductive RetryEnd
  | connected (attempt : Nat)
  | abortedUnexpected (attempt : Nat)
  | terminalFailure
deriving DecidableEq, Repr

/-- One pass of the recorder's `for attempt in range(max_retries)` loop,
returning the list of slept backoff delays and how the loop ended. -/
def recorderRetryAux (outcome : Nat → AttemptOutcome) :
    Nat → Nat → Nat → (List Nat × RetryEnd)
  | _, 0, _ => ([], RetryEnd.terminalFailure)
  | attempt, remaining + 1, delay =>
    match outcome attempt with
    | AttemptOutcome.ok => ([], RetryEnd.connected attempt)
    | AttemptOutcome.otherErr => ([], RetryEnd.abortedUnexpected attempt)
    | AttemptOutcome.connErr =>
      let rec_ := recorderRetryAux outcome (attempt + 1) remaining (min (delay * 2) 10)
      (delay :: rec_.1, rec_.2)

/-- The recorder's bounded reconnect policy: 10 attempts, initial delay 2 s. -/
def recorderRetry (outcome : Nat → AttemptOutcome) : List Nat × RetryEnd :=
  recorderRetryAux outcome 0 10 2

/-- Claim C3: the bounded exponential reconnect policy with initial delay
2 s, multiplier 2, cap 10 s and 10 maximum attempts produces exactly the
delay sequence 2,4,8,10,10,10,10,10,10,10 seconds across its failed
attempts, and after the last attempt fails it reports terminal failure of
the endpoint. -/
theorem c3_backoff :
    recorderRetry (fun _ => AttemptOutcome.connErr)
      = ([2, 4, 8, 10, 10, 10, 10, 10, 10, 10], RetryEnd.terminalFailure) := by
  rfl

/-! ## Session registry (robot_node.py lines 73-84 and 155-159)

The hub's registry is the pair of Python sets `websockets_set` / `pcs`.
`handle_client` adds the channel on entry (`websockets_set.add(ws)`); if
attaching the media track fails it discards it and returns early
(lines 79-84); otherwise the `finally` block (lines 155-159) discards it,
whichever way the message loop ended.  `set.add` of an already-present
element and `set.discard` of an absent element are no-ops, which is what
`regApply` implements.  The session identity is the object identity of the
websocket, modelled as a unique `Nat`. -/

inductive RegOp
  | add (i : Nat)
  | discard (i : Nat)
deriving DecidableEq, Repr

/-- Python set semantics for the registry: `add` inserts if absent,
`discard` removes if present (idempotent). -/
def regApply (s : List Nat) : RegOp → List Nat
  | RegOp.add i => if i ∈ s then s else i :: s
  | RegOp.discard i => s.filter (fun j => j ≠ i)

def regRun (ops : List RegOp) : List Nat := ops.foldl regApply []

lemma regApply_nodup (s : List Nat) (op : RegOp) (h : s.Nodup) :
    (regApply s op).Nodup := by
  cases op with
  | add i =>
    by_cases hm : i ∈ s
    · simpa [regApply, hm] using h
    · simp only [regApply, if_neg hm]
      exact List.nodup_cons.mpr ⟨hm, h⟩
  | discard i => exact h.filter _

lemma regRunAux_nodup (ops : List RegOp) :
    ∀ s : List Nat, s.Nodup → (ops.foldl regApply s).Nodup := by
  induction ops with
  | nil => intro s h; exact h
  | cons op rest ih => intro s h; exact ih _ (regApply_nodup s op h)

/-- How the body of `handle_client` can end. -/
inductive LoopEnd
  | gracefulClose
  | connectionClosedErr
  | unexpectedErr
deriving DecidableEq, Repr

/-- One execution of `handle_client` for session `i`. `addTrackFails` is the
early failure path of robot_node.py:79-84; otherwise `loopEnd` says whether
the message loop ended by channel close (line 151), by an unexpected error
(line 153), or normally, after which the `finally` block runs. -/
structure HandlerRun where
  addTrackFails : Bool
  loopEnd : LoopEnd
deriving DecidableEq, Repr

/-- The registry operations one `handle_client` run performs on
`websockets_set`, in program order. -/
def handlerRegOps (i : Nat) (r : HandlerRun) : List RegOp :=
  RegOp.add i ::
    (if r.addTrackFails then
      [RegOp.discard i]
    else
      match r.loopEnd with
      | LoopEnd.gracefulClose => [RegOp.discard i]
      | LoopEnd.connectionClosedErr => [RegOp.discard i]
      | LoopEnd.unexpectedErr => [RegOp.discard i])

/-- Claim C8: for every sequence of accepted channels, the session registry
never contains two sessions with the same identity, and each session is
removed from the registry exactly once, exactly when its channel or
transport terminates (the removal is the final registry action of the
handler), regardless of which failure path triggered the teardown. -/
theorem c8_registry (i : Nat) (r : HandlerRun) (ops : List RegOp) :
    (regRun ops).Nodup
    ∧ (handlerRegOps i r).count (RegOp.discard i) = 1
    ∧ (handlerRegOps i r).getLast? = some (RegOp.discard i)
    ∧ (handlerRegOps i r).head? = some (RegOp.add i) := by
  refine ⟨regRunAux_nodup ops [] List.nodup_nil, ?_, ?_, ?_⟩ <;>
    rcases r with ⟨ft, le⟩ <;> cases ft <;> cases le <;>
      simp [handlerRegOps, List.count_cons]

/-! ## Signaling messages (JSON envelopes, spec section 6)

A received websocket message is either unparseable JSON
(`json.loads` raises `JSONDecodeError`) or a JSON object whose relevant
keys are modelled explicitly.  A key that is absent is `none`; reading an
absent key with `data["k"]` raises `KeyError`, reading with `data.get("k")`
yields `None`.  The inner candidate dict is either missing one of the keys
the code indexes (a `KeyError` on `cand[...]`) or carries the three
fields. -/

inductive CandPayload
  | missingKey
  | fields (candidate : String) (sdpMid : Option String) (sdpMLineIndex : Option Int)
deriving DecidableEq, Repr

inductive RawMsg
  | invalidJson (raw : String)
  | obj (typ : Option String) (sdp : Option String) (cand : Option CandPayload)
        (command : Option String) (message : Option String) (raw : String)
deriving DecidableEq, Repr

/-- A well-formed candidate envelope, as built at robot_node.py:120-127. -/
def candMsg (c : String) (mid : Option String) (mli : Option Int) (raw : String) : RawMsg :=
  RawMsg.obj (some "candidate") none (some (CandPayload.fields c mid mli)) none none raw

/-- A negotiation or candidate message sent out over a signaling channel. -/
inductive OutMsg
  | negotiation (typ : String) (sdp : String)
  | iceCandidate (candidate : String) (sdpMid : Option String) (sdpMLineIndex : Option Int)
deriving DecidableEq, Repr

def isOfferMsg : OutMsg → Bool
  | OutMsg.negotiation t _ => t == "offer"
  | _ => false

def isAnswerMsg : OutMsg → Bool
  | OutMsg.negotiation t _ => t == "answer"
  | _ => false

/-- The out-of-scope media transport engine (aiortc), reduced to the two
opaque values the signaling layer routes: the SDP a client's `createOffer`
produces and the SDP the hub's `createAnswer` produces for a given remote
offer. -/
structure Engine where
  offerSdp : String
  answerSdp : String → String

/-- Modelled from the spec: the transport engine's candidate sink
(`RTCPeerConnection.addIceCandidate`, outside src/) accepts a connectivity
candidate only once the session "reaches a state able to accept it"
(spec section 3), i.e. once the remote description has been applied and
negotiation is complete; before that, feeding it a candidate fails. -/
def transportAcceptsCandidate (remoteSet : Bool) : Bool := remoteSet

/-- The overlay state of the hub's shared `VideoStream`
(robot_node.py:31-32): the `playing` flag and the overlay `text`. -/
structure Overlay where
  playing : Bool
  text : String
deriving DecidableEq, Repr

/-- Command dispatch of robot_node.py:133-139.  `data.get("message", "")`
defaults an absent message to the empty string; an unknown command kind
changes no state. -/
def applyCommand (o : Overlay) (cmd : String) (message : Option String) : Overlay :=
  if cmd = "pause" then ⟨false, o.text⟩
  else if cmd = "play" then ⟨true, o.text⟩
  else if cmd = "text" then ⟨o.playing, message.getD ""⟩
  else o

/-- Per-channel state of the hub's `handle_client` message loop. -/
structure HubState where
  remoteSet : Bool
  applied : List (String × Option String × Option Int)
  overlay : Overlay
  sentToPeer : List OutMsg
  relayed : List String
  logs : List String
deriving Repr

def hubInit : HubState :=
  { remoteSet := false, applied := [], overlay := ⟨true, ""⟩,
    sentToPeer := [], relayed := [], logs := [] }

/-- One iteration of the hub's `async for message in ws` loop
(robot_node.py:103-150).  Every branch catches its own exceptions, so the
step is a total function on the channel state:
  * unparseable JSON is logged and dropped (line 147);
  * `"type": "offer"`: `data["sdp"]` missing raises a `KeyError` caught at
    line 118; otherwise the remote description is applied, `createAnswer`
    runs and the answer is sent back (lines 107-117) — the hub never sends
    an offer;
  * `"type": "candidate"`: a missing key raises a `KeyError` caught at
    line 130; otherwise `addIceCandidate` is attempted immediately — there
    is no buffer — and a failure is only logged (lines 120-131);
  * a non-empty `"command"` value updates the overlay state and the raw
    message is relayed to the other channels (lines 132-146); an empty
    string is falsy in `data.get("command")` and the message is ignored;
  * anything else matches no branch and is silently ignored. -/
def hubStep (E : Engine) (st : HubState) : RawMsg → HubState
  | RawMsg.invalidJson _ =>
    { st with logs := st.logs ++ ["Invalid JSON message"] }
  | RawMsg.obj typ sdp cand command message raw =>
    if typ = some "offer" then
      match sdp with
      | none => { st with logs := st.logs ++ ["WebRTC signaling error"] }
      | some s =>
        { st with remoteSet := true,
                  sentToPeer := st.sentToPeer ++ [OutMsg.negotiation "answer" (E.answerSdp s)],
                  logs := st.logs ++ ["Sent WebRTC answer"] }
    else if typ = some "candidate" then
      match cand with
      | none => { st with logs := st.logs ++ ["Failed to add ICE candidate"] }
      | some CandPayload.missingKey =>
        { st with logs := st.logs ++ ["Failed to add ICE candidate"] }
      | some (CandPayload.fields c mid mli) =>
        if transportAcceptsCandidate st.remoteSet then
          { st with applied := st.applied ++ [(c, mid, mli)],
                    logs := st.logs ++ ["Added ICE candidate"] }
        else
          { st with logs := st.logs ++ ["Failed to add ICE candidate"] }
    else
      match command with
      | none => st
      | some c =>
        if c = "" then st
        else { st with overlay := applyCommand st.overlay c message,
                       relayed := st.relayed ++ [raw] }

/-- The hub's message loop: every message is handled by the total `hubStep`,
so the loop consumes its whole input; the returned list is the unprocessed
suffix, always empty. -/
def hubLoop (E : Engine) (st : HubState) : List RawMsg → HubState × List RawMsg
  | [] => (st, [])
  | m :: rest => hubLoop E (hubStep E st m) rest

lemma hubLoop_consumes (E : Engine) (msgs : List RawMsg) :
    ∀ st : HubState, (hubLoop E st msgs).2 = [] := by
  induction msgs with
  | nil => intro st; rfl
  | cons m rest ih => intro st; simpa [hubLoop] using ih (hubStep E st m)

lemma hubStep_sent_filter_offer (E : Engine) (st : HubState) (m : RawMsg) :
    ((hubStep E st m).sentToPeer).filter isOfferMsg = st.sentToPeer.filter isOfferMsg := by
  cases m with
  | invalidJson r => rfl
  | obj typ sdp cand command message raw =>
    simp only [hubStep]
    split
    · cases sdp with
      | none => rfl
      | some s => simp [List.filter_append, isOfferMsg]
    · split
      · cases cand with
        | none => rfl
        | some cp =>
          cases cp with
          | missingKey => rfl
          | fields c mid mli =>
            by_cases h : transportAcceptsCandidate st.remoteSet = true <;> simp [h]
      · cases command with
        | none => rfl
        | some c =>
          by_cases h : c = "" <;> simp [h]

lemma hubLoop_sent_filter_offer (E : Engine) (msgs : List RawMsg) :
    ∀ st : HubState, ((hubLoop E st msgs).1.sentToPeer).filter isOfferMsg
      = st.sentToPeer.filter isOfferMsg := by
  induction msgs with
  | nil => intro st; rfl
  | cons m rest ih =>
    intro st
    calc ((hubLoop E (hubStep E st m) rest).1.sentToPeer).filter isOfferMsg
        = ((hubStep E st m).sentToPeer).filter isOfferMsg := ih (hubStep E st m)
      _ = st.sentToPeer.filter isOfferMsg := hubStep_sent_filter_offer E st m

lemma hubStep_remoteSet_true (E : Engine) (st : HubState) (m : RawMsg)
    (h : st.remoteSet = true) : (hubStep E st m).remoteSet = true := by
  cases m with
  | invalidJson r => exact h
  | obj typ sdp cand command message raw =>
    simp only [hubStep]
    repeat' split
    all_goals first | rfl | exact h

lemma hubStep_candidate_applied (E : Engine) (st : HubState) (c : String)
    (mid : Option String) (mli : Option Int) (raw : String) (h : st.remoteSet = true) :
    hubStep E st (candMsg c mid mli raw)
      = { st with applied := st.applied ++ [(c, mid, mli)],
                  logs := st.logs ++ ["Added ICE candidate"] } := by
  simp [hubStep, candMsg, transportAcceptsCandidate, h]

lemma hubStep_candidate_dropped (E : Engine) (st : HubState) (c : String)
    (mid : Option String) (mli : Option Int) (raw : String) (h : st.remoteSet = false) :
    hubStep E st (candMsg c mid mli raw)
      = { st with logs := st.logs ++ ["Failed to add ICE candidate"] } := by
  simp [hubStep, candMsg, transportAcceptsCandidate, h]

lemma hubLoop_applied_of_remoteSet (E : Engine)
    (cs : List (String × Option String × Option Int)) :
    ∀ st : HubState, st.remoteSet = true →
      (hubLoop E st (cs.map (fun t => candMsg t.1 t.2.1 t.2.2 ""))).1.applied
        = st.applied ++ cs := by
  induction cs with
  | nil => intro st _; simp [hubLoop]
  | cons c rest ih =>
    intro st h
    simp only [List.map_cons, hubLoop]
    rw [hubStep_candidate_applied E st c.1 c.2.1 c.2.2 "" h]
    rw [ih { st with applied := st.applied ++ [(c.1, c.2.1, c.2.2)],
                     logs := st.logs ++ ["Added ICE candidate"] } h]
    rw [List.append_assoc]
    rfl

/-- The complete list of negotiation messages the operator client sends
during one `run_once` (operator_node.py:84-87): the single offer created by
`createOffer` and sent right after `setLocalDescription`.  The receive loop
(operator_node.py:89-104) sends nothing, so the client never sends an
answer. -/
def opNegotiationSends (E : Engine) : List OutMsg :=
  [OutMsg.negotiation "offer" E.offerSdp]

/-- The complete list of negotiation messages the recorder client sends
during one `run_once` (recorder_node.py:66-76): the single offer. -/
def recNegotiationSends (E : Engine) : List OutMsg :=
  [OutMsg.negotiation "offer" E.offerSdp]

/-- A concrete transport engine used for concrete executions. -/
def E0 : Engine :=
  { offerSdp := "client-offer-sdp", answerSdp := fun _ => "hub-answer-sdp" }

/-- Counterexample to claim C1 as stated: on the concrete trace in which the
hub receives one offer, the hub's complete negotiation output is a single
answer (it answered, which the claim forbids, and sent no offer, which the
claim requires), while the operator client's complete negotiation output is
a single offer (it offered, which the claim forbids). -/
theorem c1_counterexample :
    ((hubLoop E0 hubInit
        [RawMsg.obj (some "offer") (some "client-offer-sdp") none none none "m1"]).1.sentToPeer
      = [OutMsg.negotiation "answer" "hub-answer-sdp"])
    ∧ opNegotiationSends E0 = [OutMsg.negotiation "offer" "client-offer-sdp"] :=
  ⟨rfl, rfl⟩

/-- Claim C1 (amended): the roles are the reverse of the claim.  For every
accepted channel the hub acts as the answerer: it never sends an offer (over
any message sequence), and upon receiving the client's offer it replies with
exactly one answer produced by its transport; every client endpoint
(operator and recorder) generates the offer, sends it to the hub, and never
sends an answer. -/
theorem c1_amended (E : Engine) (msgs : List RawMsg) (s raw : String) :
    ((hubLoop E hubInit msgs).1.sentToPeer).filter isOfferMsg = []
    ∧ (hubStep E hubInit (RawMsg.obj (some "offer") (some s) none none none raw)).sentToPeer
        = [OutMsg.negotiation "answer" (E.answerSdp s)]
    ∧ (opNegotiationSends E).filter isAnswerMsg = []
    ∧ (recNegotiationSends E).filter isAnswerMsg = []
    ∧ opNegotiationSends E = [OutMsg.negotiation "offer" E.offerSdp]
    ∧ recNegotiationSends E = [OutMsg.negotiation "offer" E.offerSdp] := by
  refine ⟨?_, rfl, rfl, rfl, rfl, rfl⟩
  rw [hubLoop_sent_filter_offer]
  rfl

/-! ## Operator signaling loop (operator_node.py lines 89-104)

The operator's `signaling_loop` has no exception handling of its own:
`json.loads` on unparseable input, a missing `"sdp"` or `"candidate"` key,
and a failing `addIceCandidate` all raise out of the loop, through
`asyncio.gather` in `run_once` (which catches only `CancelledError`) and
out of the retry loop (which catches only connection errors), ending the
session. -/

inductive PyError
  | jsonDecodeError
  | keyError (k : String)
  | addCandidateError
deriving DecidableEq, Repr

structure OpState where
  remoteSet : Bool
  applied : List (String × Option String × Option Int)
deriving DecidableEq, Repr

def opInit : OpState := { remoteSet := false, applied := [] }

def operatorStep (st : OpState) : RawMsg → Except PyError OpState
  | RawMsg.invalidJson _ => Except.error PyError.jsonDecodeError
  | RawMsg.obj typ sdp cand _ _ _ =>
    if typ = some "answer" then
      match sdp with
      | none => Except.error (PyError.keyError "sdp")
      | some _ => Except.ok { st with remoteSet := true }
    else if typ = some "candidate" then
      match cand with
      | none => Except.error (PyError.keyError "candidate")
      | some CandPayload.missingKey => Except.error (PyError.keyError "sdpMid")
      | some (CandPayload.fields c mid mli) =>
        if transportAcceptsCandidate st.remoteSet then
          Except.ok { st with applied := st.applied ++ [(c, mid, mli)] }
        else
          Except.error PyError.addCandidateError
    else Except.ok st

def operatorLoop (st : OpState) : List RawMsg → Except PyError OpState
  | [] => Except.ok st
  | m :: rest =>
    match operatorStep st m with
    | Except.error e => Except.error e
    | Except.ok st2 => operatorLoop st2 rest

/-! ## Recorder signaling loop (recorder_node.py lines 78-118)

Each dispatch branch (`answer`, `candidate`, `command`) has its own
`try/except` that logs and continues, so those are total steps; but
`json.loads` sits outside any inner handler, so unparseable JSON reaches
the outer `except Exception` which logs and returns from the loop, leaving
any further messages unprocessed. -/

structure RecState where
  remoteSet : Bool
  applied : List (String × Option String × Option Int)
  commandLog : List String
  logs : List String
deriving DecidableEq, Repr

def recInit : RecState := { remoteSet := false, applied := [], commandLog := [], logs := [] }

def recorderStep (st : RecState) : RawMsg → RecState
  | RawMsg.invalidJson _ => st
  | RawMsg.obj typ sdp cand command _ raw =>
    if typ = some "answer" then
      match sdp with
      | none => { st with logs := st.logs ++ ["Failed to set remote answer"] }
      | some _ => { st with remoteSet := true, logs := st.logs ++ ["Set remote answer"] }
    else if typ = some "candidate" then
      match cand with
      | none => { st with logs := st.logs ++ ["Failed to add ICE candidate"] }
      | some CandPayload.missingKey =>
        { st with logs := st.logs ++ ["Failed to add ICE candidate"] }
      | some (CandPayload.fields c mid mli) =>
        if transportAcceptsCandidate st.remoteSet then
          { st with applied := st.applied ++ [(c, mid, mli)],
                    logs := st.logs ++ ["Added ICE candidate"] }
        else
          { st with logs := st.logs ++ ["Failed to add ICE candidate"] }
    else
      match command with
      | none => st
      | some c =>
        if c = "" then st
        else { st with commandLog := st.commandLog ++ [raw] }

/-- The recorder's signaling loop; returns the final state and the suffix
of messages left unprocessed when the loop returned early. -/
def recorderLoop (st : RecState) : List RawMsg → RecState × List RawMsg
  | [] => (st, [])
  | RawMsg.invalidJson _ :: rest =>
    ({ st with logs := st.logs ++ ["Unexpected error in signaling/logging"] }, rest)
  | RawMsg.obj typ sdp cand command message raw :: rest =>
    recorderLoop (recorderStep st (RawMsg.obj typ sdp cand command message raw)) rest

/-- Counterexample to claim C5 as stated: the operator endpoint receives an
unparseable JSON message followed by a well-formed answer; instead of
logging and discarding the malformed message and continuing, the signaling
loop (which has no handler) raises `json.JSONDecodeError`, the session ends
and the subsequent answer is never processed. -/
theorem c5_counterexample :
    operatorLoop opInit
      [RawMsg.invalidJson "not json",
       RawMsg.obj (some "answer") (some "sdp-a") none none none "m2"]
      = Except.error PyError.jsonDecodeError := rfl

/-- Claim C5 (amended): malformed signaling handling is per-endpoint and
per-kind rather than uniform.  Hub: the channel always remains open and
processing of subsequent messages continues; unparseable JSON and messages
with a missing required field (an offer without `"sdp"`, a candidate
envelope without its `"candidate"` dict or with an inner key missing) are
logged and discarded, while a message with an unknown command kind is not
logged as an error — it leaves the overlay state unchanged and is relayed
to the other peers.  Operator: unparseable JSON and missing required
fields raise an unhandled exception that ends the session, leaving
subsequent messages unprocessed, while an unknown-command message is
silently skipped and processing continues.  Recorder: unparseable JSON is
logged and terminates the signaling loop, leaving subsequent messages
unprocessed, while a missing required field is logged and processing
continues, and an unknown-command message is appended to the command log
and processing continues. -/
theorem c5_amended (E : Engine) (st : HubState) (ost : OpState) (rst : RecState)
    (r raw : String) (m : Option String) (c : String) (msgs : List RawMsg)
    (hc0 : c ≠ "") (hc1 : c ≠ "pause") (hc2 : c ≠ "play") (hc3 : c ≠ "text") :
    (hubLoop E st msgs).2 = []
    ∧ hubStep E st (RawMsg.invalidJson r)
        = { st with logs := st.logs ++ ["Invalid JSON message"] }
    ∧ hubStep E st (RawMsg.obj (some "offer") none none none none raw)
        = { st with logs := st.logs ++ ["WebRTC signaling error"] }
    ∧ hubStep E st (RawMsg.obj (some "candidate") none none none none raw)
        = { st with logs := st.logs ++ ["Failed to add ICE candidate"] }
    ∧ hubStep E st (RawMsg.obj (some "candidate") none (some CandPayload.missingKey) none none raw)
        = { st with logs := st.logs ++ ["Failed to add ICE candidate"] }
    ∧ hubStep E st (RawMsg.obj none none none (some c) m raw)
        = { st with relayed := st.relayed ++ [raw] }
    ∧ operatorLoop ost (RawMsg.invalidJson r :: msgs) = Except.error PyError.jsonDecodeError
    ∧ operatorLoop ost (RawMsg.obj (some "answer") none none none none raw :: msgs)
        = Except.error (PyError.keyError "sdp")
    ∧ operatorLoop ost (RawMsg.obj (some "candidate") none none none none raw :: msgs)
        = Except.error (PyError.keyError "candidate")
    ∧ operatorLoop ost
        (RawMsg.obj (some "candidate") none (some CandPayload.missingKey) none none raw :: msgs)
        = Except.error (PyError.keyError "sdpMid")
    ∧ operatorLoop ost (RawMsg.obj none none none (some c) m raw :: msgs) = operatorLoop ost msgs
    ∧ recorderLoop rst (RawMsg.invalidJson r :: msgs)
        = ({ rst with logs := rst.logs ++ ["Unexpected error in signaling/logging"] }, msgs)
    ∧ recorderLoop rst (RawMsg.obj (some "answer") none none none none raw :: msgs)
        = recorderLoop { rst with logs := rst.logs ++ ["Failed to set remote answer"] } msgs
    ∧ recorderLoop rst
        (RawMsg.obj (some "candidate") none (some CandPayload.missingKey) none none raw :: msgs)
        = recorderLoop { rst with logs := rst.logs ++ ["Failed to add ICE candidate"] } msgs
    ∧ recorderLoop rst (RawMsg.obj none none none (some c) m raw :: msgs)
        = recorderLoop { rst with commandLog := rst.commandLog ++ [raw] } msgs := by
  refine ⟨hubLoop_consumes E msgs st, rfl, rfl, rfl, rfl, ?_,
          rfl, rfl, rfl, rfl, rfl, rfl, rfl, rfl, ?_⟩
  · simp [hubStep, applyCommand, hc0, hc1, hc2, hc3]
  · have hstep : recorderStep rst (RawMsg.obj none none none (some c) m raw)
        = { rst with commandLog := rst.commandLog ++ [raw] } := by
      simp [recorderStep, hc0]
    simp only [recorderLoop, hstep]

/-- Witness for C5 (amended): at the initial hub state, the unknown command
kind "frobnicate" is relayed to the other peers without an error log. -/
theorem c5_amended_witness :
    hubStep E0 hubInit (RawMsg.obj none none none (some "frobnicate") none "m")
      = { hubInit with relayed := hubInit.relayed ++ ["m"] } :=
  (c5_amended E0 hubInit opInit recInit "x" "m" none "frobnicate" []
    (by decide) (by decide) (by decide) (by decide)).2.2.2.2.2.1

/-- The concrete hub trace of C4's counterexample: a connectivity candidate
arrives before the client's offer. -/
def earlyCandTrace : List RawMsg :=
  [candMsg "cand0" none none "r0",
   RawMsg.obj (some "offer") (some "client-offer-sdp") none none none "r1"]

/-- Counterexample to claim C4 as stated: a candidate arrives before
negotiation completes.  The hub applies it immediately, the attempt fails
and is only logged; after negotiation then completes (`remoteSet = true`)
the candidate still has not been applied — there is no buffer, and the
candidate was dropped. -/
theorem c4_counterexample :
    ((hubLoop E0 hubInit earlyCandTrace).1.applied = [])
    ∧ ((hubLoop E0 hubInit earlyCandTrace).1.remoteSet = true)
    ∧ ((hubLoop E0 hubInit earlyCandTrace).1.logs
        = ["Failed to add ICE candidate", "Sent WebRTC answer"]) :=
  ⟨rfl, rfl, rfl⟩

/-- Claim C4 (amended): the hub keeps no candidate buffer.  A connectivity
candidate arriving before negotiation completes is passed to the transport
immediately, the failure is logged, and the candidate is discarded — never
buffered or re-applied later; candidates arriving after negotiation
completes are applied immediately, in arrival order. -/
theorem c4_amended (E : Engine) (st : HubState) (c : String) (mid : Option String)
    (mli : Option Int) (raw : String)
    (cs : List (String × Option String × Option Int)) :
    (st.remoteSet = false →
      hubStep E st (candMsg c mid mli raw)
        = { st with logs := st.logs ++ ["Failed to add ICE candidate"] })
    ∧ (st.remoteSet = true →
      hubStep E st (candMsg c mid mli raw)
        = { st with applied := st.applied ++ [(c, mid, mli)],
                    logs := st.logs ++ ["Added ICE candidate"] })
    ∧ (st.remoteSet = true →
      (hubLoop E st (cs.map (fun t => candMsg t.1 t.2.1 t.2.2 ""))).1.applied
        = st.applied ++ cs) :=
  ⟨hubStep_candidate_dropped E st c mid mli raw,
   hubStep_candidate_applied E st c mid mli raw,
   hubLoop_applied_of_remoteSet E cs st⟩

/-- Witness for C4 (amended): at the freshly accepted channel state, a
candidate arriving before the offer is only logged as failed. -/
theorem c4_amended_witness :
    hubStep E0 hubInit (candMsg "cand0" none none "r0")
      = { hubInit with logs := hubInit.logs ++ ["Failed to add ICE candidate"] } :=
  (c4_amended E0 hubInit "cand0" none none "r0" []).1 rfl

/-- Claim C10: for every received command of kind "text" whose optional
"message" field is absent, the hub sets the overlay text to the empty
string (clearing any previously displayed overlay) rather than rejecting
the command or leaving the overlay state unchanged; the playing flag is
untouched. -/
theorem c10_text_default (E : Engine) (st : HubState) (raw : String) :
    (hubStep E st (RawMsg.obj none none none (some "text") none raw)).overlay.text = ""
    ∧ (hubStep E st (RawMsg.obj none none none (some "text") none raw)).overlay.playing
        = st.overlay.playing :=
  ⟨rfl, rfl⟩

/-! ## VideoStream — the frame producer (robot_node.py lines 15-68)

`__init__` (lines 18-30) picks the capture source: the camera
`/dev/video0`, else the recorded `sample.mp4`, else it sets
`self.synthetic = True`.  `recv` (lines 36-68) rate-limits to about 30 fps,
then spins in `while not self.playing: await asyncio.sleep(0.05)`, then in
the try block either builds a synthetic test-pattern image (synthetic mode)
or reads from the capture source, rewinding and retrying once on a failed
read and re-invoking `self.recv()` recursively if that read also fails.
In the synthetic branch the constructed image is never returned: the
`return video_frame` statement only exists in the non-synthetic branch, so
the function falls out of the try block and Python returns `None`. -/

inductive SourceChoice
  | camera
  | sampleFile
  | syntheticFeed
deriving DecidableEq, Repr

/-- The fallback chain of `VideoStream.__init__` (robot_node.py:18-30). -/
def initSource (cameraOk sampleOk : Bool) : SourceChoice :=
  if cameraOk then SourceChoice.camera
  else if sampleOk then SourceChoice.sampleFile
  else SourceChoice.syntheticFeed

/-- The mutable state of a `VideoStream`: the synthetic flag set by
`__init__`, the capture read position, and the overlay fields. -/
structure VSState where
  synthetic : Bool
  pos : Nat
  text : String
  playing : Bool
deriving DecidableEq, Repr

/-- What one call to `recv` produces.  `frame img overlay` is a returned
`av.VideoFrame` built from image `img` with the text overlay applied when
`self.text` is non-empty; `nullReturn` is the Python `None` that `recv`
yields when it falls out of the try block without reaching a `return`;
`stillRecursing` means the call is still inside the self-recursive retry
after `fuel` nested re-invocations. -/
inductive RecvOut
  | frame (img : Nat) (overlay : Option String)
  | nullReturn
  | stillRecursing
deriving DecidableEq, Repr

/-- `self.cap.read()` against an abstract capture source `cap`: the read
result at the current position, advancing the position. -/
def capRead (cap : Nat → Option Nat) (s : VSState) : Option Nat × VSState :=
  (cap s.pos, { s with pos := s.pos + 1 })

/-- The body of `VideoStream.recv` after the rate-limit and pause gates
(robot_node.py:45-68), with the self-recursion `return await self.recv()`
(line 57) made fuel-indexed: `fuel` bounds the number of nested
re-invocations the model unfolds, and exhausting it means the Python call
is still recursing. -/
def recvBody (cap : Nat → Option Nat) : Nat → VSState → RecvOut × VSState
  | 0, s => (RecvOut.stillRecursing, s)
  | fuel + 1, s =>
    if s.synthetic then
      (RecvOut.nullReturn, s)
    else
      match capRead cap s with
      | (some img, s2) =>
        (RecvOut.frame img (if s.text = "" then none else some s.text), s2)
      | (none, s2) =>
        match capRead cap { s2 with pos := 0 } with
        | (some img, s3) =>
          (RecvOut.frame img (if s.text = "" then none else some s.text), s3)
        | (none, s3) => recvBody cap fuel s3

/-- The `while not self.playing: await asyncio.sleep(0.05)` gate of
`recv` (robot_node.py:43-44), fuel-indexed by sleep iterations: with the
flag unchanged the gate returns `none` (still sleeping) at every fuel. -/
def recvWaitGate : Nat → Overlay → Option Unit
  | 0, _ => none
  | n + 1, o => if o.playing then some () else recvWaitGate n o

lemma recvWaitGate_of_not_playing (n : Nat) (o : Overlay) (h : o.playing = false) :
    recvWaitGate n o = none := by
  induction n with
  | zero => rfl
  | succ k ih => simp [recvWaitGate, h, ih]

/-- The synthetic-mode stream state after both capture fallbacks failed. -/
def synthState : VSState := { synthetic := true, pos := 0, text := "", playing := true }

/-- Claim C6 (code evaluated at the failing input): with the camera
unavailable, `__init__` falls back to `sample.mp4` and then to the
synthetic feed as claimed — but in synthetic mode `recv` yields `None`,
not a frame: the synthetic test-pattern image is built and then dropped
because the branch has no return statement. -/
theorem c6_synthetic_recv_returns_none :
    initSource false true = SourceChoice.sampleFile
    ∧ initSource false false = SourceChoice.syntheticFeed
    ∧ (recvBody (fun _ => none) 5 synthState).1 = RecvOut.nullReturn :=
  ⟨rfl, rfl, rfl⟩

/-- The stream state right after a pause command was handled. -/
def pausedOverlay : Overlay := applyCommand ⟨true, ""⟩ "pause" none

/-- Counterexample to claim C7 as stated: after a pause command flips
`playing` to false, `recv` blocks in its sleep loop — no number of loop
iterations lets it past the gate to produce a frame, so frame production
halts while paused. -/
theorem c7_counterexample :
    ¬ ∃ n, recvWaitGate n pausedOverlay = some () := by
  rintro ⟨n, hn⟩
  rw [recvWaitGate_of_not_playing n pausedOverlay rfl] at hn
  exact Option.noConfusion hn

/-- Claim C7 (amended): a pause command sets `playing` from true to false,
after which `recv` blocks in `while not self.playing` and produces no
frames — frame production halts while paused — and a subsequent play
command sets `playing` back to true, letting `recv` pass the gate at once. -/
theorem c7_amended (o : Overlay) (h : o.playing = true) :
    (applyCommand o "pause" none).playing = false
    ∧ (∀ n, recvWaitGate n (applyCommand o "pause" none) = none)
    ∧ (∀ n, recvWaitGate (n + 1) (applyCommand (applyCommand o "pause" none) "play" none)
        = some ()) := by
  refine ⟨rfl, fun n => recvWaitGate_of_not_playing n _ rfl, fun n => rfl⟩

/-- Witness for C7 (amended), at the initial overlay state
`playing = true, text = ""`. -/
theorem c7_amended_witness :
    (applyCommand ⟨true, ""⟩ "pause" none).playing = false
    ∧ (∀ n, recvWaitGate n (applyCommand ⟨true, ""⟩ "pause" none) = none)
    ∧ (∀ n, recvWaitGate (n + 1)
        (applyCommand (applyCommand ⟨true, ""⟩ "pause" none) "play" none) = some ()) :=
  c7_amended ⟨true, ""⟩ rfl

lemma recvBody_always_recursing (fuel : Nat) :
    ∀ s : VSState, s.synthetic = false →
      (recvBody (fun _ => none) fuel s).1 = RecvOut.stillRecursing := by
  induction fuel with
  | zero => intro s _; rfl
  | succ k ih =>
    intro s h
    simp only [recvBody, h, Bool.false_eq_true, if_false, capRead]
    exact ih _ rfl

/-- A non-synthetic stream state (camera or file source selected). -/
def camState : VSState := { synthetic := false, pos := 0, text := "", playing := true }

/-- Counterexample to claim C9 as stated: against a capture source whose
reads always fail, `recv` never yields an error result after any bounded
number of retries — at every recursion depth it is still re-invoking
itself, so the retry is unbounded self-recursion, not a bounded loop. -/
theorem c9_counterexample :
    ¬ ∃ fuel, (recvBody (fun _ => none) fuel camState).1 ≠ RecvOut.stillRecursing := by
  rintro ⟨fuel, hf⟩
  exact hf (recvBody_always_recursing fuel camState rfl)

/-- Claim C9 (amended): on a failed read `recv` rewinds the source and
retries once; if that read also fails it re-invokes itself recursively
with no bound and no error result — against a persistently failing source
it never terminates — while a successful read after the rewind does return
a frame. -/
theorem c9_amended (cap : Nat → Option Nat) (fuel : Nat) (s : VSState) (img : Nat)
    (h : s.synthetic = false) (h1 : cap s.pos = none) (h2 : cap 0 = some img) :
    (∀ f, (recvBody (fun _ => none) f s).1 = RecvOut.stillRecursing)
    ∧ (recvBody cap (fuel + 1) s).1
        = RecvOut.frame img (if s.text = "" then none else some s.text) := by
  refine ⟨fun f => recvBody_always_recursing f s h, ?_⟩
  simp only [recvBody, h, Bool.false_eq_true, if_false, capRead, h1, h2]

/-- The stream state at the end of `sample.mp4`, where the next read fails. -/
def eofState : VSState := { synthetic := false, pos := 5, text := "", playing := true }

/-- A capture source with readable frames only at the start. -/
def shortCap : Nat → Option Nat := fun p => if p = 0 then some 42 else none

/-- Witness for C9 (amended): at the end of the short source the read
fails, the rewind read succeeds with frame 42; and against an always
failing source recv still recurses at depth 7. -/
theorem c9_amended_witness :
    (∀ f, (recvBody (fun _ => none) f eofState).1 = RecvOut.stillRecursing)
    ∧ (recvBody shortCap (7 + 1) eofState).1 = RecvOut.frame 42 none :=
  c9_amended shortCap 7 eofState 42 rfl rfl rfl
